import Mathlib

/-
Verification of the angzarr C++ client runtime (shallow embedding).

The definitions below translate the header-only runtime in
src/client/cpp/include/angzarr/ into Lean:
  helpers.hpp              -> type_name_from_url, type_url_matches, next_sequence
  router.hpp               -> CommandRouter, StateRouter, RejectionHandlerResponse
  aggregate.hpp            -> Aggregate (rebuild_state)
  process_manager.hpp      -> ProcessManager (rebuild_state, dispatch)
  upcaster.hpp             -> UpcasterRouter (upcast)
  builder.hpp              -> QueryBuilder (as_of_time, parse_rfc3339)

Protobuf messages are modelled structurally; serialization is abstracted:
a google.protobuf.Any carries its type_url plus a structured payload, and
UnpackTo is modelled as a match on that payload.  Handlers and appliers,
stored in C++ as type-erased std::function values, are modelled as Lean
functions; per the runtime contract, state is mutated only by appliers, so
handlers are pure functions of the state they are shown.
-/

namespace Angzarr

/-- google.protobuf.Timestamp. -/
structure Timestamp where
  seconds : Int
  nanos : Int
deriving DecidableEq, Repr

/-- types.pb.h UUID: an opaque byte-string value. -/
structure UUID where
  value : String
deriving DecidableEq, Repr

/-- types.pb.h Edition. -/
structure Edition where
  name : String
deriving DecidableEq, Repr

/-- types.pb.h Cover: the envelope header. -/
structure Cover where
  domain : String
  root : Option UUID
  correlation_id : String
  edition : Option Edition
deriving DecidableEq, Repr

/-
The Any / Notification / RejectionNotification / CommandBook cycle is a
genuine recursion in the wire format (a Notification wraps an Any that
holds a RejectionNotification, which holds the rejected CommandBook, whose
pages hold Any commands), so these are defined in one mutual block.
-/
mutual

/-- google.protobuf.Any: type_url plus a structured stand-in for bytes. -/
inductive Any where
  | mk (type_url : String) (value : AnyPayload)

/-- The decoded forms an Any payload can take in this runtime. -/
inductive AnyPayload where
  | blob (bytes : String)
  | notif (n : Notification)
  | rejn (r : RejectionNotification)

/-- types.pb.h Notification: wraps a payload Any. -/
inductive Notification where
  | mk (payload : Option Any)

/-- types.pb.h RejectionNotification. -/
inductive RejectionNotification where
  | mk (issuer_name issuer_type rejection_reason : String)
       (rejected_command : Option CommandBook)

/-- types.pb.h CommandBook: cover plus command pages. -/
inductive CommandBook where
  | mk (cover : Option Cover) (pages : List CommandPage)

/-- types.pb.h CommandPage: sequence number plus command Any. -/
inductive CommandPage where
  | mk (sequence : Nat) (command : Option Any)

end

/-- Accessor: Any.type_url. -/
def Any.type_url : Any → String
  | .mk u _ => u

/-- Accessor: Any.value. -/
def Any.value : Any → AnyPayload
  | .mk _ v => v

/-- Default-constructed Any (empty type_url), as protobuf returns for an
unset message field. -/
def anyDefault : Any := .mk "" (.blob "")

/-- Accessor: Notification.payload. -/
def Notification.payload : Notification → Option Any
  | .mk p => p

/-- Accessor: RejectionNotification.rejected_command. -/
def RejectionNotification.rejected_command : RejectionNotification → Option CommandBook
  | .mk _ _ _ rc => rc

/-- Accessor: RejectionNotification.rejection_reason. -/
def RejectionNotification.rejection_reason : RejectionNotification → String
  | .mk _ _ r _ => r

/-- Accessor: CommandBook.cover. -/
def CommandBook.cover : CommandBook → Option Cover
  | .mk c _ => c

/-- Accessor: CommandBook.pages. -/
def CommandBook.pages : CommandBook → List CommandPage
  | .mk _ p => p

/-- Accessor: CommandPage.command. -/
def CommandPage.command : CommandPage → Option Any
  | .mk _ c => c

/-- Default-constructed Cover, as cover() returns when the field is unset. -/
def coverDefault : Cover := ⟨"", none, "", none⟩

/-- types.pb.h EventPage: sequence, created_at timestamp, event Any. -/
structure EventPage where
  sequence : Nat
  created_at : Option Timestamp
  event : Option Any

/-- types.pb.h EventBook: cover plus event pages. -/
structure EventBook where
  cover : Option Cover
  pages : List EventPage

/-- aggregate.pb.h ContextualCommand: command book plus prior events.
cmd.command() yields the default CommandBook when the field is unset, so
the command field is carried directly. -/
structure ContextualCommand where
  command : CommandBook
  events : Option EventBook

/-- router.hpp RejectionHandlerResponse: events and/or notification. -/
structure RejectionHandlerResponse where
  events : Option EventBook
  notification : Option Notification

/-- aggregate.pb.h BusinessResponse: one of events, notification,
or revocation (emit_system_revocation flag plus reason). -/
inductive BusinessResponse where
  | events (book : EventBook)
  | notification (n : Notification)
  | revocation (emit_system_revocation : Bool) (reason : String)

/-- errors.hpp: the runtime errors thrown by dispatch. -/
inductive RtError where
  | invalidArgument (msg : String)
  | runtimeError (msg : String)
deriving DecidableEq, Repr

/-- helpers.hpp type_name_from_url: substring after the last '/', or the
whole string when no '/' occurs (rfind + substr, expressed as
reverse / takeWhile / reverse, which computes the same suffix in both
branches). -/
def type_name_from_url (type_url : String) : String :=
  String.mk ((type_url.data.reverse.takeWhile (fun c => c != '/')).reverse)

/-- helpers.hpp type_url_matches: type_url equals the fixed prefix
(TYPE_URL_PREFIX, the constant string inlined below) followed by the
type name. -/
def type_url_matches (type_url type_name : String) : Bool :=
  type_url == "type.googleapis.com/" ++ type_name

/-- helpers.hpp next_sequence: 0 for an absent or empty book, else the
page count. -/
def next_sequence (book : Option EventBook) : Nat :=
  match book with
  | none => 0
  | some b => if b.pages.length = 0 then 0 else b.pages.length

/-- The correlation ID read off a book cover:
book.has_cover() ? book.cover().correlation_id() : "". -/
def coverCorrelation (book : EventBook) : String :=
  match book.cover with
  | some c => c.correlation_id
  | none => ""

/-- Exact-key lookup in a keyed handler table (std::map::find).  The table
is modelled as an association list; all accesses in the embedded code are
by exact key or match at most one entry, so the sorted iteration order of
std::map is immaterial. -/
def lookupMap {α : Type} : List (String × α) → String → Option α
  | [], _ => none
  | (k', v) :: t, k => if k = k' then some v else lookupMap t k

/-- Keyed insert-or-overwrite (std::map operator[]): an existing key keeps
its position and takes the new value, a new key is added. -/
def mapInsert {α : Type} (k : String) (v : α) : List (String × α) → List (String × α)
  | [] => [(k, v)]
  | (k', v') :: t => if k = k' then (k, v) :: t else (k', v') :: mapInsert k v t

/-- Recursive worker for splitKey: locate the first '/'. -/
def splitKeyAux : List Char → Option (List Char × List Char)
  | [] => none
  | c :: t =>
    if c = '/' then some ([], t)
    else match splitKeyAux t with
      | some (a, b) => some (c :: a, b)
      | none => none

/-- key.find('/') followed by key.substr(0, pos) / key.substr(pos + 1):
split at the first '/'.  When no '/' occurs, pos is npos and both
substrings evaluate to the whole key (substr(0, npos) and, after the
size_t wrap of npos + 1, substr(0)). -/
def splitKey (key : String) : String × String :=
  match splitKeyAux key.data with
  | some (a, b) => (String.mk a, String.mk b)
  | none => (key, key)

/-
router.hpp CommandRouter<State>.  Command handlers are kept in a vector of
(suffix, handler) pairs in registration order; rejection handlers in a
std::map keyed by "domain/command".  The rebuild function is taken as
total: dispatch throws runtime_error when it is absent, and every
constructed router in this development supplies one.
-/
structure CommandRouter (σ : Type) where
  domain : String
  rebuild : Option EventBook → σ
  handlers : List (String × (CommandBook → Any → σ → Nat → EventBook))
  rejection_handlers : List (String × (Notification → σ → RejectionHandlerResponse))

/-- CommandRouter::on — appends the (suffix, handler) pair; no duplicate
check is performed. -/
def CommandRouter.on {σ : Type} (r : CommandRouter σ) (suffix : String)
    (handler : CommandBook → Any → σ → Nat → EventBook) : CommandRouter σ :=
  ⟨r.domain, r.rebuild, r.handlers ++ [(suffix, handler)], r.rejection_handlers⟩

/-- CommandRouter::on_rejected — rejection_handlers_[domain + "/" + command]
= handler (insert-or-overwrite). -/
def CommandRouter.on_rejected {σ : Type} (r : CommandRouter σ)
    (domain command : String)
    (handler : Notification → σ → RejectionHandlerResponse) : CommandRouter σ :=
  ⟨r.domain, r.rebuild, r.handlers,
    mapInsert (domain ++ "/" ++ command) handler r.rejection_handlers⟩

/-- command_any.UnpackTo(&notification) with the returned bool ignored: a
failed unpack leaves the default-constructed (empty) Notification. -/
def unpackNotification (a : Any) : Notification :=
  match a.value with
  | .notif n => n
  | _ => .mk none

/-- notification.payload().UnpackTo(&rejection) with the returned bool
tested: succeeds exactly when the payload bytes decode as a
RejectionNotification. -/
def unpackRejection (a : Any) : Option RejectionNotification :=
  match a.value with
  | .rejn r => some r
  | _ => none

/-- The (domain, command_suffix) pair extracted by dispatch_rejection from
the notification: cover domain and first-page command type name of the
rejected command, or empty strings when any layer is missing. -/
def rejectionKeyOf (n : Notification) : String × String :=
  match n.payload with
  | none => ("", "")
  | some payload =>
    match unpackRejection payload with
    | none => ("", "")
    | some rej =>
      match rej.rejected_command with
      | none => ("", "")
      | some cb =>
        match cb.pages with
        | [] => ("", "")
        | p0 :: _ =>
          ((cb.cover.getD coverDefault).domain,
           type_name_from_url ((p0.command.getD anyDefault).type_url))

/-- The tail of the matched-handler branch of dispatch_rejection: turn the
handler response into a BusinessResponse, notification first, then events,
else a non-system revocation naming the key. -/
def combineRejection (routerDomain key : String)
    (resp : RejectionHandlerResponse) : BusinessResponse :=
  match resp.notification with
  | some nt => .notification nt
  | none =>
    match resp.events with
    | some ev => .events ev
    | none =>
      .revocation false
        ("Aggregate " ++ routerDomain ++ " handled rejection for " ++ key)

/-- CommandRouter::dispatch_rejection — scan the rejection handler table;
an entry matches when its key-domain equals the extracted domain and
type_url_matches(command_suffix, key-command) holds; otherwise answer the
default system revocation. -/
def CommandRouter.dispatch_rejection {σ : Type} (r : CommandRouter σ)
    (n : Notification) (state : σ) : BusinessResponse :=
  let dk := rejectionKeyOf n
  match r.rejection_handlers.find? (fun kv =>
      let ec := splitKey kv.1
      (dk.1 == ec.1) && type_url_matches dk.2 ec.2) with
  | some (key, handler) => combineRejection r.domain key (handler n state)
  | none =>
    .revocation true
      ("Aggregate " ++ r.domain ++ " has no custom compensation for "
        ++ dk.1 ++ "/" ++ dk.2)

/-- CommandRouter::dispatch — rebuild state, check the command book, route
a Notification page to dispatch_rejection, else invoke the first handler
whose suffix matches the first page's type URL. -/
def CommandRouter.dispatch {σ : Type} (r : CommandRouter σ)
    (cmd : ContextualCommand) : Except RtError BusinessResponse :=
  let prior := cmd.events
  let state := r.rebuild prior
  let seq := next_sequence prior
  match cmd.command.pages with
  | [] => .error (.invalidArgument "No command pages")
  | p0 :: _ =>
    let command_any := p0.command.getD anyDefault
    if command_any.type_url = "" then
      .error (.invalidArgument "No command pages")
    else if type_url_matches command_any.type_url "Notification" then
      .ok (r.dispatch_rejection (unpackNotification command_any) state)
    else
      match r.handlers.find? (fun sh => type_url_matches command_any.type_url sh.1) with
      | some (_, handler) =>
        .ok (.events (handler cmd.command command_any state seq))
      | none =>
        .error (.invalidArgument ("Unknown command type: " ++ command_any.type_url))

/-
router.hpp StateRouter<State>: fluent state reconstruction.  The factory
is a nullary function; modelled by its value.  Appliers are keyed by event
type suffix and matched through type_url_matches, so at most one entry of
the map can match a given type URL.
-/
structure StateRouter (σ : Type) where
  factory : σ
  appliers : List (String × (σ → Any → σ))

/-- StateRouter::apply_event — first (only) applier whose suffix matches
the event's type URL; unmatched events leave the state unchanged. -/
def StateRouter.apply_event {σ : Type} (r : StateRouter σ) (state : σ) (event_any : Any) : σ :=
  match r.appliers.find? (fun sa => type_url_matches event_any.type_url sa.1) with
  | some (_, applier) => applier state event_any
  | none => state

/-- StateRouter::with_event_book — fold the appliers over the event pages,
skipping pages without an event. -/
def StateRouter.with_event_book {σ : Type} (r : StateRouter σ) (book : Option EventBook) : σ :=
  match book with
  | none => r.factory
  | some b =>
    b.pages.foldl (fun s page =>
      match page.event with
      | none => s
      | some e => r.apply_event s e) r.factory

/-
aggregate.hpp Aggregate<StateT>.  The C++ class keeps per-derived-type
static registries (handlers / appliers / rejection_handlers, all std::map
keyed by type-name suffix or "domain/command") plus the virtual domain()
and create_empty_state(); modelled as one record.  Only rebuild_state is
embedded here — it is what the claims about this class concern.
-/
structure Aggregate (σ : Type) where
  domain : String
  create_empty_state : σ
  appliers : List (String × (σ → Any → σ))
  handlers : List (String × (σ → Any → Nat → EventBook))
  rejection_handlers : List (String × (σ → Notification → EventBook))

/-- Aggregate::apply_event — look the applier up by the trailing type name
of the event's URL; absent appliers skip silently. -/
def Aggregate.apply_event {σ : Type} (a : Aggregate σ) (state : σ) (event_any : Any) : σ :=
  match lookupMap a.appliers (type_name_from_url event_any.type_url) with
  | some applier => applier state event_any
  | none => state

/-- Aggregate::rebuild_state — start from the empty state with exists_ =
false; each event-carrying page is applied (when an applier exists) and
sets exists_ = true regardless of whether an applier matched. -/
def Aggregate.rebuild_state {σ : Type} (a : Aggregate σ)
    (event_book : Option EventBook) : σ × Bool :=
  match event_book with
  | none => (a.create_empty_state, false)
  | some b =>
    b.pages.foldl (fun acc page =>
      match page.event with
      | none => acc
      | some e => (a.apply_event acc.1 e, true)) (a.create_empty_state, false)

/-
process_manager.hpp ProcessManager<StateT>.  Same static-registry shape as
Aggregate; react handlers read the PM state (state is mutated only by
appliers), so they are modelled as functions of (state, event,
correlation_id).  PM rejection handlers return an EventBook that dispatch
discards, so they cannot influence the dispatch result in this embedding.
-/
structure ProcessManager (σ : Type) where
  name : String
  create_empty_state : σ
  appliers : List (String × (σ → Any → σ))
  handlers : List (String × (σ → Any → String → List CommandBook))
  rejection_handlers : List (String × (σ → Notification → EventBook))

/-- ProcessManager::rebuild_state — unlike Aggregate::rebuild_state, the
exists_ flag is set inside the applier-found branch: only a page whose
event type has a registered applier marks the PM as existing. -/
def ProcessManager.rebuild_state {σ : Type} (pm : ProcessManager σ)
    (event_book : Option EventBook) : σ × Bool :=
  match event_book with
  | none => (pm.create_empty_state, false)
  | some b =>
    b.pages.foldl (fun acc page =>
      match page.event with
      | none => acc
      | some e =>
        match lookupMap pm.appliers (type_name_from_url e.type_url) with
        | some applier => (applier acc.1 e, true)
        | none => acc) (pm.create_empty_state, false)

/-- The state evolution of one loop iteration of ProcessManager::dispatch:
pages without an event and Notification pages leave the state alone;
otherwise the registered applier (if any) for the event's type name runs. -/
def pmStep {σ : Type} (pm : ProcessManager σ) (state : σ) (page : EventPage) : σ :=
  match page.event with
  | none => state
  | some e =>
    if type_url_matches e.type_url "Notification" then state
    else
      match lookupMap pm.appliers (type_name_from_url e.type_url) with
      | some applier => applier state e
      | none => state

/-- The PM state after the dispatch loop has consumed the given pages. -/
def pmStateAfter {σ : Type} (pm : ProcessManager σ) (state : σ)
    (pages : List EventPage) : σ :=
  pages.foldl (pmStep pm) state

/-- The commands contributed by one loop iteration of
ProcessManager::dispatch.  The loop computes the post-applier state
(pmStep pm state page, the loop's local state after the applier ran) and
hands it to the react handler; a page without an event contributes
nothing, and a Notification page goes to dispatch_rejection, whose
returned events the loop discards ("continue"). -/
def pmPageCmds {σ : Type} (pm : ProcessManager σ) (correlation_id : String)
    (state : σ) (page : EventPage) : List CommandBook :=
  match page.event with
  | none => []
  | some e =>
    if type_url_matches e.type_url "Notification" then []
    else
      match lookupMap pm.handlers (type_name_from_url e.type_url) with
      | some handler => handler (pmStep pm state page) e correlation_id
      | none => []

/-- The page loop of ProcessManager::dispatch: collect each page's handler
commands and thread the page's applier effect into the loop state. -/
def pmDispatchEvents {σ : Type} (pm : ProcessManager σ) (correlation_id : String) :
    σ → List EventPage → List CommandBook
  | _, [] => []
  | state, page :: rest =>
    pmPageCmds pm correlation_id state page
      ++ pmDispatchEvents pm correlation_id (pmStep pm state page) rest

/-- ProcessManager::dispatch — rebuild from the prior PM history, require
a correlation ID (else return empty), then run the page loop.  The C++
method performs the rebuild before the correlation check; as rebuild is
pure, the result is the same. -/
def ProcessManager.dispatch {σ : Type} (pm : ProcessManager σ)
    (book : EventBook) (prior_events : Option EventBook) : List CommandBook :=
  if coverCorrelation book = "" then []
  else pmDispatchEvents pm (coverCorrelation book) (pm.rebuild_state prior_events).1 book.pages

/-
upcaster.hpp UpcasterRouter: an ordered vector of (old type_url suffix,
transform) pairs; a page is rewritten by the first handler whose suffix
is a suffix of the page's event type URL.
-/
structure UpcasterRouter where
  domain : String
  handlers : List (String × (Any → Any))

/-- UpcasterRouter::on — append a (suffix, handler) pair. -/
def UpcasterRouter.on (r : UpcasterRouter) (suffix : String)
    (handler : Any → Any) : UpcasterRouter :=
  ⟨r.domain, r.handlers ++ [(suffix, handler)]⟩

/-- One iteration of UpcasterRouter::upcast: pages without an event and
pages matching no suffix pass through; a matched page is rebuilt with the
transformed event, the original sequence number and the original
created_at timestamp. -/
def upcastPage (r : UpcasterRouter) (page : EventPage) : EventPage :=
  match page.event with
  | none => page
  | some e =>
    match r.handlers.find? (fun sh => sh.1.data.isSuffixOf e.type_url.data) with
    | some (_, handler) => ⟨page.sequence, page.created_at, some (handler e)⟩
    | none => page

/-- UpcasterRouter::upcast — the loop over the input pages. -/
def UpcasterRouter.upcast (r : UpcasterRouter) : List EventPage → List EventPage
  | [] => []
  | page :: rest => upcastPage r page :: r.upcast rest

/-- builder.hpp error type for the query builder's time parser. -/
inductive BuilderError where
  | invalidTimestamp (msg : String)
deriving DecidableEq, Repr

/-- C isspace (default locale), used by sscanf %d before a number. -/
def isSpaceC (c : Char) : Bool :=
  (c == ' ') || (c == '\t') || (c == '\n') ||
  (c == Char.ofNat 11) || (c == Char.ofNat 12) || (c == '\r')

/-- Decimal value of a digit string. -/
def digitsToNat (ds : List Char) : Nat :=
  ds.foldl (fun acc c => acc * 10 + (c.toNat - '0'.toNat)) 0

/-- The digit tail of a %d conversion after an optional sign: at least one
digit, consumed greedily. -/
def scanIntDigits (l : List Char) (neg : Bool) : Option (Int × List Char) :=
  match l.takeWhile Char.isDigit with
  | [] => none
  | ds =>
    some ((if neg then -(Int.ofNat (digitsToNat ds)) else Int.ofNat (digitsToNat ds)),
          l.dropWhile Char.isDigit)

/-- sscanf %d: skip whitespace, accept an optional sign, then digits. -/
def scanInt (l : List Char) : Option (Int × List Char) :=
  match l.dropWhile isSpaceC with
  | [] => none
  | c :: rest =>
    if c = '-' then scanIntDigits rest true
    else if c = '+' then scanIntDigits rest false
    else scanIntDigits (c :: rest) false

/-- An ordinary (non-whitespace) character in a scanf format: the next
input character must match it exactly. -/
def scanLit (c : Char) : List Char → Option (List Char)
  | [] => none
  | x :: rest => if x = c then some rest else none

/-- sscanf(s, "%d-%d-%dT%d:%d:%d", ...): six integers or failure.  The C
call must assign all six values (!= 6 is rejected by the caller). -/
def sscanf6 (l : List Char) : Option (Int × Int × Int × Int × Int × Int) :=
  match scanInt l with
  | none => none
  | some (year, l1) =>
  match scanLit '-' l1 with
  | none => none
  | some l2 =>
  match scanInt l2 with
  | none => none
  | some (month, l3) =>
  match scanLit '-' l3 with
  | none => none
  | some l4 =>
  match scanInt l4 with
  | none => none
  | some (day, l5) =>
  match scanLit 'T' l5 with
  | none => none
  | some l6 =>
  match scanInt l6 with
  | none => none
  | some (hour, l7) =>
  match scanLit ':' l7 with
  | none => none
  | some l8 =>
  match scanInt l8 with
  | none => none
  | some (minute, l9) =>
  match scanLit ':' l9 with
  | none => none
  | some l10 =>
  match scanInt l10 with
  | none => none
  | some (second, _) =>
    some (year, month, day, hour, minute, second)

/-- Gregorian leap-year test as written in the source.  C's % and Lean's %
agree on divisibility (remainder zero) for every operand sign, which is
all this predicate uses. -/
def isLeapYear (y : Int) : Bool :=
  (y % 4 == 0 && y % 100 != 0) || y % 400 == 0

/-- for (y = 1970; y < year; ++y) days += 365 + leap(y). -/
def yearLoopDays (year : Int) : Int :=
  (List.range (year - 1970).toNat).foldl
    (fun acc i => acc + 365 + (if isLeapYear (1970 + Int.ofNat i) then 1 else 0)) 0

/-- static const int days_in_month[13]. -/
def days_in_month : List Nat := [0, 31, 28, 31, 30, 31, 30, 31, 31, 30, 31, 30, 31]

/-- for (m = 1; m < month; ++m) days += days_in_month[m].  For month > 13
the C loop reads past the 13-entry array (undefined behaviour); the model
reads 0 there.  The acceptance or rejection of an input never depends on
this value. -/
def monthLoopDays (month : Int) : Int :=
  (List.range (month - 1).toNat).foldl
    (fun acc i => acc + Int.ofNat (days_in_month.getD (i + 1) 0)) 0

/-- QueryBuilder::parse_rfc3339 — requires length >= 20 and 'T' at byte
10, then six sscanf integers; converts via the simplified day count
(no leap seconds, UTC assumed).  The trailing characters, including the
'Z', are never examined. -/
def parse_rfc3339 (rfc3339 : String) : Except BuilderError Timestamp :=
  if rfc3339.data.length < 20 ∨ rfc3339.data[10]? ≠ some 'T' then
    .error (.invalidTimestamp ("Invalid RFC3339 timestamp: " ++ rfc3339))
  else
    match sscanf6 rfc3339.data with
    | none => .error (.invalidTimestamp ("Invalid RFC3339 timestamp: " ++ rfc3339))
    | some (year, month, day, hour, minute, second) =>
      let days : Int :=
        yearLoopDays year + monthLoopDays month
          + (if 2 < month ∧ isLeapYear year = true then 1 else 0)
          + (day - 1)
      .ok ⟨days * 86400 + hour * 3600 + minute * 60 + second, 0⟩

/-- builder.hpp QueryBuilder: the fields touched by the temporal and range
options.  The client pointer and execution methods are out of scope. -/
structure QueryBuilder where
  domain : String
  root : Option String
  correlation_id : Option String
  edition : Option String
  has_range : Bool
  range_lower : Nat
  range_upper : Option Nat
  has_temporal : Bool
  temporal_sequence : Option Nat
  temporal_time : Option Timestamp
deriving DecidableEq, Repr

/-- QueryBuilder::as_of_time — parse the timestamp (propagating
InvalidTimestamp), store it, set has_temporal, clear has_range. -/
def QueryBuilder.as_of_time (b : QueryBuilder) (rfc3339 : String) :
    Except BuilderError QueryBuilder :=
  match parse_rfc3339 rfc3339 with
  | .error e => .error e
  | .ok t =>
    .ok ⟨b.domain, b.root, b.correlation_id, b.edition, false, b.range_lower,
         b.range_upper, true, b.temporal_sequence, some t⟩

/-- Modelled from the spec's words only (for comparison with the code):
the simplified RFC3339 UTC form YYYY-MM-DDTHH:MM:SSZ — exactly 20
characters, digits in the date/time positions, '-', 'T', ':' separators,
and a trailing 'Z'. -/
def specSimpleRfc3339Form (s : String) : Bool :=
  (s.data.length == 20) &&
  (s.data.getD 0 ' ').isDigit && (s.data.getD 1 ' ').isDigit &&
  (s.data.getD 2 ' ').isDigit && (s.data.getD 3 ' ').isDigit &&
  (s.data.getD 4 ' ' == '-') &&
  (s.data.getD 5 ' ').isDigit && (s.data.getD 6 ' ').isDigit &&
  (s.data.getD 7 ' ' == '-') &&
  (s.data.getD 8 ' ').isDigit && (s.data.getD 9 ' ').isDigit &&
  (s.data.getD 10 ' ' == 'T') &&
  (s.data.getD 11 ' ').isDigit && (s.data.getD 12 ' ').isDigit &&
  (s.data.getD 13 ' ' == ':') &&
  (s.data.getD 14 ' ').isDigit && (s.data.getD 15 ' ').isDigit &&
  (s.data.getD 16 ' ' == ':') &&
  (s.data.getD 17 ' ').isDigit && (s.data.getD 18 ' ').isDigit &&
  (s.data.getD 19 ' ' == 'Z')

/-- Assemble a string of the simplified RFC3339 UTC shape from its
fourteen digit positions. -/
def simpleFormStr (y1 y2 y3 y4 mo1 mo2 d1 d2 h1 h2 mi1 mi2 s1 s2 : Char) : String :=
  String.mk [y1, y2, y3, y4, '-', mo1, mo2, '-', d1, d2, 'T',
             h1, h2, ':', mi1, mi2, ':', s1, s2, 'Z']

/-- Keep predicate for StateRouter rebuild comparisons: a page is kept
when it has no event or when some registered applier suffix matches its
event's type URL. -/
def srKeep {σ : Type} (r : StateRouter σ) (p : EventPage) : Bool :=
  match p.event with
  | none => true
  | some e => (r.appliers.find? (fun sa => type_url_matches e.type_url sa.1)).isSome

/-- Keep predicate for Aggregate rebuild comparisons: a page is kept when
it has no event or when an applier is registered for its event's trailing
type name. -/
def aggKeep {σ : Type} (a : Aggregate σ) (p : EventPage) : Bool :=
  match p.event with
  | none => true
  | some e => (lookupMap a.appliers (type_name_from_url e.type_url)).isSome

/-- The state component of one Aggregate::rebuild_state iteration. -/
def aggApplyPage {σ : Type} (a : Aggregate σ) (s : σ) (p : EventPage) : σ :=
  match p.event with
  | none => s
  | some e => a.apply_event s e

/-
Concrete instances used to evaluate the embedded code on the inputs the
claims speak about.
-/

/-- The rejected command of the C1 scenario: domain "inventory", first
page of type ReserveStock. -/
def rejectedReserveStock : CommandBook :=
  .mk (some ⟨"inventory", none, "", none⟩)
    [.mk 0 (some (.mk "type.googleapis.com/ReserveStock" (.blob "")))]

/-- The rejection notice for rejectedReserveStock. -/
def reserveStockNotice : Notification :=
  .mk (some (.mk "type.googleapis.com/RejectionNotification"
    (.rejn (.mk "saga-fulfillment" "saga" "out of stock" (some rejectedReserveStock)))))

/-- A router on domain "orders" with a rejection handler registered for
(inventory, ReserveStock) that forwards the incoming notification. -/
def forwardingRouter : CommandRouter Nat :=
  (CommandRouter.mk "orders" (fun prior => next_sequence prior) [] []).on_rejected
    "inventory" "ReserveStock" (fun n _ => ⟨none, some n⟩)

/-- The contextual command carrying reserveStockNotice as its first page. -/
def reserveStockCommand : ContextualCommand :=
  ⟨.mk (some ⟨"orders", none, "corr-1", none⟩)
    [.mk 0 (some (.mk "type.googleapis.com/Notification" (.notif reserveStockNotice)))],
   none⟩

/-- A compensation event book used by the both-set rejection handler. -/
def stockReleasedBook : EventBook :=
  ⟨none, [⟨0, none, some (.mk "type.googleapis.com/StockReleased" (.blob ""))⟩]⟩

/-- The rejection notice of the C10 scenario: rejected (payment, Charge). -/
def chargeNotice : Notification :=
  .mk (some (.mk "type.googleapis.com/RejectionNotification"
    (.rejn (.mk "saga-payment" "saga" "declined"
      (some (.mk (some ⟨"payment", none, "", none⟩)
        [.mk 0 (some (.mk "type.googleapis.com/Charge" (.blob "")))]))))))

/-- A router with a rejection handler for (payment, Charge) returning both
compensation events and a forwarded notification. -/
def bothRouter : CommandRouter Nat :=
  (CommandRouter.mk "orders" (fun prior => next_sequence prior) [] []).on_rejected
    "payment" "Charge" (fun n _ => ⟨some stockReleasedBook, some n⟩)

/-- The contextual command carrying chargeNotice as its first page. -/
def chargeCommand : ContextualCommand :=
  ⟨.mk (some ⟨"orders", none, "corr-2", none⟩)
    [.mk 0 (some (.mk "type.googleapis.com/Notification" (.notif chargeNotice)))],
   none⟩

/-- A one-page event book whose event type "B" has no registered applier
in countingPM or countingAgg. -/
def unappliedTypeBook : EventBook :=
  ⟨none, [⟨0, none, some (.mk "type.googleapis.com/B" (.blob ""))⟩]⟩

/-- A process manager whose single applier counts "A" events. -/
def countingPM : ProcessManager Nat :=
  ⟨"pm-count", 0, [("A", fun s _ => s + 1)], [], []⟩

/-- An aggregate with the same single applier for "A" events. -/
def countingAgg : Aggregate Nat :=
  ⟨"agg-count", 0, [("A", fun s _ => s + 1)], [], []⟩

/-- A one-page event book produced by the first duplicate handler. -/
def oneEventBook : EventBook :=
  ⟨none, [⟨0, none, some (.mk "type.googleapis.com/PlayerRegistered" (.blob ""))⟩]⟩

/-- A two-page event book produced by the second duplicate handler. -/
def twoEventBook : EventBook :=
  ⟨none, [⟨0, none, some (.mk "type.googleapis.com/PlayerRegistered" (.blob ""))⟩,
          ⟨1, none, some (.mk "type.googleapis.com/PlayerRenamed" (.blob ""))⟩]⟩

/-- A router on which RegisterPlayer is registered twice with observably
different handlers. -/
def regRouterTwice : CommandRouter Nat :=
  ((CommandRouter.mk "player" (fun _ => 0) [] []).on
    "RegisterPlayer" (fun _ _ _ _ => oneEventBook)).on
    "RegisterPlayer" (fun _ _ _ _ => twoEventBook)

/-- A RegisterPlayer contextual command. -/
def registerCmd : ContextualCommand :=
  ⟨.mk (some ⟨"player", none, "", none⟩)
    [.mk 0 (some (.mk "type.googleapis.com/RegisterPlayer" (.blob "")))],
   none⟩

/-- The react handler of the sequencing PM: records the state it observes
in the page sequence number of an otherwise empty command book. -/
def seqHandler : Nat → Any → String → List CommandBook :=
  fun s _ _ => [.mk none [.mk s none]]

/-- A PM that counts "Evt" events in its applier and reports the observed
count through seqHandler. -/
def seqPM : ProcessManager Nat :=
  ⟨"pm-seq", 0, [("Evt", fun s _ => s + 1)], [("Evt", seqHandler)], []⟩

/-- An "Evt" page. -/
def evtPage5 : EventPage :=
  ⟨0, none, some (.mk "type.googleapis.com/Evt" (.blob ""))⟩

/-- The "Evt" payload of evtPage5. -/
def evtAny5 : Any := .mk "type.googleapis.com/Evt" (.blob "")

/-- A two-page source book with a correlation ID. -/
def seqBook : EventBook :=
  ⟨some ⟨"dom", none, "corr-7", none⟩, [evtPage5, evtPage5]⟩

/-- A source book with a cover but an empty correlation ID. -/
def noCorrBook : EventBook :=
  ⟨some ⟨"dom", none, "", none⟩,
   [⟨0, none, some (.mk "type.googleapis.com/Evt" (.blob ""))⟩]⟩

/-- An upcaster with a single V1 handler. -/
def upcOrder : UpcasterRouter :=
  ⟨"order", [("OrderCreatedV1", fun _ => .mk "type.googleapis.com/OrderCreated" (.blob "v2"))]⟩

/-- A page whose type URL matches no registered upcaster suffix. -/
def unmatchedPage : EventPage :=
  ⟨7, some ⟨5, 0⟩, some (.mk "type.googleapis.com/Other" (.blob ""))⟩

/-- An initial query builder on domain "orders". -/
def exampleQB : QueryBuilder :=
  ⟨"orders", none, none, none, false, 0, none, false, none, none⟩

/-- exampleQB after as_of_time("2024-01-15T10:30:00Z"). -/
def exampleQBAfter : QueryBuilder :=
  ⟨"orders", none, none, none, false, 0, none, true, none, some ⟨1705314600, 0⟩⟩

/-
General lemmas.
-/

/-- takeWhile keeps a full prefix of satisfying elements and stops at the
first failing element. -/
theorem takeWhile_append_stop {p : Char → Bool} (l1 : List Char) (x : Char)
    (l2 : List Char) (h1 : ∀ a ∈ l1, p a = true) (hx : p x = false) :
    (l1 ++ x :: l2).takeWhile p = l1 := by
  induction l1 with
  | nil => simp [List.takeWhile_cons, hx]
  | cons a t ih =>
    have ha : p a = true := h1 a (List.mem_cons_self a t)
    simp only [List.cons_append, List.takeWhile_cons, ha, if_true]
    rw [ih (fun b hb => h1 b (List.mem_cons_of_mem a hb))]

/-- takeWhile is the identity on a list of satisfying elements. -/
theorem takeWhile_all {p : Char → Bool} (l : List Char)
    (h : ∀ a ∈ l, p a = true) : l.takeWhile p = l := by
  induction l with
  | nil => rfl
  | cons a t ih =>
    have ha : p a = true := h a (List.mem_cons_self a t)
    simp only [List.takeWhile_cons, ha, if_true]
    rw [ih (fun b hb => h b (List.mem_cons_of_mem a hb))]

/-- The trailing type name extracted from a URL contains no '/'. -/
theorem no_slash_type_name (u : String) : '/' ∉ (type_name_from_url u).data := by
  intro hmem
  have h1 : '/' ∈ (u.data.reverse.takeWhile (fun c => c != '/')) := by
    have : (type_name_from_url u).data
        = (u.data.reverse.takeWhile (fun c => c != '/')).reverse := rfl
    rw [this, List.mem_reverse] at hmem
    exact hmem
  have h2 := List.mem_takeWhile_imp h1
  simp at h2

/-- The match condition of CommandRouter::dispatch_rejection can never
hold: it asks whether a bare trailing type name (which contains no '/')
equals the fixed prefix (which ends in '/') followed by the expected
command name. -/
theorem type_name_never_full_match (u c : String) :
    type_url_matches (type_name_from_url u) c = false := by
  cases hb : type_url_matches (type_name_from_url u) c with
  | false => rfl
  | true =>
    exfalso
    have he : type_name_from_url u = "type.googleapis.com/" ++ c := eq_of_beq hb
    have hs : '/' ∈ (type_name_from_url u).data := by
      rw [he, String.data_append]
      exact List.mem_append_left _ (by decide)
    exact no_slash_type_name u hs

/-- Claim C9: for a type name n without '/', the fixed-prefix URL matches
n and strips back to n; and a URL without '/' is its own type name. -/
theorem type_url_round_trip (n : String) (hn : '/' ∉ n.data) :
    type_url_matches ("type.googleapis.com/" ++ n) n = true
    ∧ type_name_from_url ("type.googleapis.com/" ++ n) = n
    ∧ ∀ u : String, '/' ∉ u.data → type_name_from_url u = u := by
  refine ⟨by simp [type_url_matches], ?_, ?_⟩
  · show String.mk ((("type.googleapis.com/" ++ n).data.reverse.takeWhile
        (fun c => c != '/')).reverse) = n
    rw [String.data_append, List.reverse_append]
    have hrev : ("type.googleapis.com/".data).reverse
        = '/' :: ("type.googleapis.com".data).reverse := by decide
    rw [hrev]
    rw [takeWhile_append_stop n.data.reverse '/' _
      (by
        intro a ha
        rw [List.mem_reverse] at ha
        simp only [bne_iff_ne, ne_eq]
        intro he
        exact hn (he ▸ ha))
      (by decide)]
    rw [List.reverse_reverse]
  · intro u hu
    show String.mk ((u.data.reverse.takeWhile (fun c => c != '/')).reverse) = u
    rw [takeWhile_all u.data.reverse
      (by
        intro a ha
        rw [List.mem_reverse] at ha
        simp only [bne_iff_ne, ne_eq]
        intro he
        exact hu (he ▸ ha))]
    rw [List.reverse_reverse]

/-- Claim C1 (refuted; the code contradicts its own tests): with a
rejection handler registered for (inventory, ReserveStock) that forwards
the notification, dispatching a notification whose rejected command
targets exactly that key does not invoke the handler — the response is
the default system revocation, because the table-scan condition compares
a bare type name against a prefixed URL and (second conjunct) that
comparison is unsatisfiable for every input. -/
theorem rejection_forwarding_never_fires :
    forwardingRouter.dispatch reserveStockCommand =
      .ok (.revocation true
        "Aggregate orders has no custom compensation for inventory/ReserveStock")
    ∧ ∀ u c : String, type_url_matches (type_name_from_url u) c = false :=
  ⟨rfl, fun u c => type_name_never_full_match u c⟩

/-- Claim C10 (refuted by the same matching defect as C1): a rejection
handler for (payment, Charge) that returns both events and a
notification is never reached — dispatch answers the system revocation —
although the response-combination logic itself (second conjunct) does
prefer the notification whenever both are set. -/
theorem rejection_both_set_response :
    bothRouter.dispatch chargeCommand =
      .ok (.revocation true
        "Aggregate orders has no custom compensation for payment/Charge")
    ∧ ∀ (rd k : String) (ev : EventBook) (nt : Notification),
        combineRejection rd k ⟨some ev, some nt⟩ = .notification nt :=
  ⟨rfl, fun _ _ _ _ => rfl⟩

/-- Claim C2 (refuted for process managers; the PM contradicts its own
exists() documentation): rebuilding a PM from a non-empty history whose
event type has no registered applier leaves the exists flag false, while
the aggregate rebuild of the very same history sets it true. -/
theorem pm_exists_requires_applier :
    (countingPM.rebuild_state (some unappliedTypeBook)).2 = false
    ∧ unappliedTypeBook.pages.any (fun p => p.event.isSome) = true
    ∧ (countingAgg.rebuild_state (some unappliedTypeBook)).2 = true :=
  ⟨rfl, rfl, rfl⟩

/-- Exact-key lookup after insert-or-overwrite finds the new value. -/
theorem lookupMap_mapInsert {α : Type} (k : String) (v : α)
    (l : List (String × α)) : lookupMap (mapInsert k v l) k = some v := by
  induction l with
  | nil => simp [mapInsert, lookupMap]
  | cons kv t ih =>
    obtain ⟨k', v'⟩ := kv
    by_cases hk : k = k'
    · simp [mapInsert, lookupMap, hk]
    · simp [mapInsert, lookupMap, hk, ih]

/-- Claim C3 (amended): duplicate command registrations are both kept, in
registration order, with no error; duplicate rejection registrations for
one (domain, command) key keep the latter handler. -/
theorem registration_duplicates :
    (∀ (σ : Type) (r : CommandRouter σ) (s : String)
       (h1 h2 : CommandBook → Any → σ → Nat → EventBook),
       ((r.on s h1).on s h2).handlers = r.handlers ++ [(s, h1), (s, h2)])
    ∧ (∀ (σ : Type) (r : CommandRouter σ) (d c : String)
       (g1 g2 : Notification → σ → RejectionHandlerResponse),
       lookupMap (((r.on_rejected d c g1).on_rejected d c g2).rejection_handlers)
         (d ++ "/" ++ c) = some g2) := by
  constructor
  · intro σ r s h1 h2
    simp [CommandRouter.on]
  · intro σ r d c g1 g2
    show lookupMap (mapInsert (d ++ "/" ++ c) g2
      (mapInsert (d ++ "/" ++ c) g1 r.rejection_handlers)) (d ++ "/" ++ c) = some g2
    exact lookupMap_mapInsert _ _ _

/-- Counterexample to claim C3 as stated: registering RegisterPlayer
twice is accepted (both entries are in the table) and dispatch proceeds
normally, invoking the first registration. -/
theorem duplicate_registration_accepted :
    regRouterTwice.handlers.length = 2
    ∧ regRouterTwice.dispatch registerCmd = .ok (.events oneEventBook) :=
  ⟨rfl, rfl⟩

/-- Claim C6: a process-manager dispatch without a correlation ID returns
an empty command list, whatever the handlers and pages. -/
theorem pm_missing_correlation_empty (σ : Type) (pm : ProcessManager σ)
    (book : EventBook) (prior : Option EventBook)
    (h : coverCorrelation book = "") : pm.dispatch book prior = [] := by
  simp [ProcessManager.dispatch, h]

/-- Witness for pm_missing_correlation_empty on a PM with registered
handlers and a book with pages but an empty correlation ID. -/
theorem pm_missing_correlation_empty_witness :
    coverCorrelation noCorrBook = "" ∧ seqPM.dispatch noCorrBook none = [] :=
  ⟨rfl, pm_missing_correlation_empty Nat seqPM noCorrBook none rfl⟩

/-- A fold is unchanged by filtering out elements on which the step
function acts as the identity. -/
theorem foldl_filter_skip {α β : Type} (f : β → α → β) (keep : α → Bool)
    (hf : ∀ s p, keep p = false → f s p = s) :
    ∀ (l : List α) (s : β), List.foldl f s l = List.foldl f s (l.filter keep) := by
  intro l
  induction l with
  | nil => intro s; rfl
  | cons p t ih =>
    intro s
    cases hk : keep p with
    | true => simp only [List.filter_cons, hk, if_true, List.foldl_cons, ih]
    | false =>
      simp only [List.filter_cons, hk, List.foldl_cons, Bool.false_eq_true,
        if_false, hf s p hk, ih]

/-- The state component of Aggregate::rebuild_state is the plain fold of
aggApplyPage: the exists flag does not feed back into the state. -/
theorem agg_rebuild_fst {σ : Type} (a : Aggregate σ) (pages : List EventPage) :
    ∀ (s : σ) (bb : Bool),
    (pages.foldl (fun acc page =>
        match page.event with
        | none => acc
        | some e => (a.apply_event acc.1 e, true)) (s, bb)).1
      = pages.foldl (aggApplyPage a) s := by
  induction pages with
  | nil => intro s bb; rfl
  | cons p t ih =>
    intro s bb
    cases hpe : p.event with
    | none =>
      simp only [List.foldl_cons, hpe, ih]
      simp [aggApplyPage, hpe]
    | some e =>
      simp only [List.foldl_cons, hpe, ih]
      simp [aggApplyPage, hpe]

/-- Claim C4: rebuilding from a book that contains event types with no
registered applier succeeds and produces the same state value as
rebuilding from the book with those pages omitted — for the fluent
StateRouter and for the Aggregate rebuilder alike. -/
theorem rebuild_skips_unknown_event_types :
    (∀ (σ : Type) (r : StateRouter σ) (b : EventBook),
       r.with_event_book (some b)
         = r.with_event_book (some ⟨b.cover, b.pages.filter (srKeep r)⟩))
    ∧ (∀ (σ : Type) (a : Aggregate σ) (b : EventBook),
       (a.rebuild_state (some b)).1
         = (a.rebuild_state (some ⟨b.cover, b.pages.filter (aggKeep a)⟩)).1) := by
  constructor
  · intro σ r b
    simp only [StateRouter.with_event_book]
    apply foldl_filter_skip
    intro s p hk
    cases hpe : p.event with
    | none => simp [srKeep, hpe] at hk
    | some e =>
      cases hfind : r.appliers.find? (fun sa => type_url_matches e.type_url sa.1) with
      | none => simp [hpe, StateRouter.apply_event, hfind]
      | some val => simp [srKeep, hpe, hfind] at hk
  · intro σ a b
    simp only [Aggregate.rebuild_state]
    rw [agg_rebuild_fst, agg_rebuild_fst]
    apply foldl_filter_skip
    intro s p hk
    cases hpe : p.event with
    | none => simp [aggKeep, hpe] at hk
    | some e =>
      cases hfind : lookupMap a.appliers (type_name_from_url e.type_url) with
      | none => simp [aggApplyPage, hpe, Aggregate.apply_event, hfind]
      | some val => simp [aggKeep, hpe, hfind] at hk

/-- Splitting the PM page loop at any point: the tail resumes from the
state accumulated over the head pages. -/
theorem pmDispatchEvents_append {σ : Type} (pm : ProcessManager σ)
    (c : String) (ys : List EventPage) :
    ∀ (xs : List EventPage) (s : σ),
    pmDispatchEvents pm c s (xs ++ ys)
      = pmDispatchEvents pm c s xs
        ++ pmDispatchEvents pm c (pmStateAfter pm s xs) ys := by
  intro xs
  induction xs with
  | nil => intro s; simp [pmDispatchEvents, pmStateAfter]
  | cons p t ih =>
    intro s
    simp only [List.cons_append, pmDispatchEvents, List.append_eq, ih,
      List.append_assoc, pmStateAfter, List.foldl_cons]

/-- Claim C5: in a PM dispatch, the state the react handler of a page
observes is exactly the rebuilt prior state with the appliers of every
page up to and including that page folded in — each page's applier runs
before that page's react handler. -/
theorem pm_applier_before_react (σ : Type) (pm : ProcessManager σ)
    (prior : Option EventBook) (book : EventBook)
    (pre post : List EventPage) (page : EventPage) (e : Any)
    (h : σ → Any → String → List CommandBook)
    (hpages : book.pages = pre ++ page :: post)
    (hcorr : coverCorrelation book ≠ "")
    (hev : page.event = some e)
    (hnotif : type_url_matches e.type_url "Notification" = false)
    (hh : lookupMap pm.handlers (type_name_from_url e.type_url) = some h) :
    pm.dispatch book prior
      = pmDispatchEvents pm (coverCorrelation book)
          (pm.rebuild_state prior).1 pre
        ++ h (pmStateAfter pm (pm.rebuild_state prior).1 (pre ++ [page]))
            e (coverCorrelation book)
        ++ pmDispatchEvents pm (coverCorrelation book)
            (pmStateAfter pm (pm.rebuild_state prior).1 (pre ++ [page])) post := by
  unfold ProcessManager.dispatch
  rw [if_neg hcorr, hpages]
  rw [show pre ++ page :: post = (pre ++ [page]) ++ post by simp]
  rw [pmDispatchEvents_append, pmDispatchEvents_append]
  simp only [List.append_assoc]
  congr 1
  congr 1
  · simp [pmDispatchEvents, pmPageCmds, hev, hnotif, hh]
    congr 1
    simp [pmStateAfter, List.foldl_append]

/-- Witness for pm_applier_before_react: two "Evt" pages; the handler of
the second page observes the count 2, i.e. both appliers already ran. -/
theorem pm_applier_before_react_witness :
    seqBook.pages = [evtPage5] ++ evtPage5 :: []
    ∧ coverCorrelation seqBook ≠ ""
    ∧ evtPage5.event = some evtAny5
    ∧ type_url_matches evtAny5.type_url "Notification" = false
    ∧ lookupMap seqPM.handlers (type_name_from_url evtAny5.type_url) = some seqHandler
    ∧ seqPM.dispatch seqBook none
        = pmDispatchEvents seqPM (coverCorrelation seqBook)
            (seqPM.rebuild_state none).1 [evtPage5]
          ++ seqHandler (pmStateAfter seqPM (seqPM.rebuild_state none).1
              ([evtPage5] ++ [evtPage5])) evtAny5 (coverCorrelation seqBook)
          ++ pmDispatchEvents seqPM (coverCorrelation seqBook)
              (pmStateAfter seqPM (seqPM.rebuild_state none).1
                ([evtPage5] ++ [evtPage5])) [] :=
  ⟨rfl, by decide, rfl, by decide, rfl,
    pm_applier_before_react Nat seqPM none seqBook [evtPage5] [] evtPage5 evtAny5
      seqHandler rfl (by decide) rfl (by decide) rfl⟩

/-- Claim C8: the upcaster processes pages in order (the output is the
per-page map over the input), a page matching no registered suffix passes
through unchanged, and every output page keeps the input page's sequence
number and timestamp. -/
theorem upcast_order_and_preservation :
    (∀ (r : UpcasterRouter) (pages : List EventPage),
       r.upcast pages = pages.map (upcastPage r))
    ∧ (∀ (r : UpcasterRouter) (p : EventPage),
       (∀ e, p.event = some e →
          r.handlers.find? (fun sh => sh.1.data.isSuffixOf e.type_url.data) = none) →
       upcastPage r p = p)
    ∧ (∀ (r : UpcasterRouter) (p : EventPage),
       (upcastPage r p).sequence = p.sequence
       ∧ (upcastPage r p).created_at = p.created_at) := by
  refine ⟨?_, ?_, ?_⟩
  · intro r pages
    induction pages with
    | nil => rfl
    | cons p t ih => simp [UpcasterRouter.upcast, ih]
  · intro r p hno
    cases hpe : p.event with
    | none => simp [upcastPage, hpe]
    | some e => simp [upcastPage, hpe, hno e hpe]
  · intro r p
    cases hpe : p.event with
    | none => simp [upcastPage, hpe]
    | some e =>
      cases hfind : r.handlers.find? (fun sh => sh.1.data.isSuffixOf e.type_url.data) with
      | none => simp [upcastPage, hpe, hfind]
      | some sh => simp [upcastPage, hpe, hfind]

/-- Witness for upcast_order_and_preservation at a page whose type URL
matches no registered suffix. -/
theorem upcast_order_and_preservation_witness :
    (upcOrder.handlers.find? (fun sh =>
        sh.1.data.isSuffixOf "type.googleapis.com/Other".data) = none)
    ∧ upcastPage upcOrder unmatchedPage = unmatchedPage := by
  refine ⟨rfl, ?_⟩
  apply upcast_order_and_preservation.2.1 upcOrder unmatchedPage
  intro e he
  injection he with h
  subst h
  rfl

/-- A digit differs from any non-digit character. -/
theorem digit_ne_of (c d : Char) (hd : d.isDigit = false)
    (h : c.isDigit = true) : ¬ c = d := by
  intro he
  rw [he] at h
  rw [h] at hd
  exact Bool.noConfusion hd

/-- A digit is not scanf whitespace. -/
theorem digit_not_space (c : Char) (h : c.isDigit = true) : isSpaceC c = false := by
  simp only [isSpaceC, Bool.or_eq_false_iff, beq_eq_false_iff_ne]
  exact ⟨⟨⟨⟨⟨digit_ne_of c ' ' (by decide) h, digit_ne_of c '\t' (by decide) h⟩,
    digit_ne_of c '\n' (by decide) h⟩, digit_ne_of c (Char.ofNat 11) (by decide) h⟩,
    digit_ne_of c (Char.ofNat 12) (by decide) h⟩, digit_ne_of c '\r' (by decide) h⟩

/-- A literal scanf directive consumes its own character. -/
theorem scanLit_cons_self (c : Char) (rest : List Char) :
    scanLit c (c :: rest) = some rest := by
  simp [scanLit]

/-- Scanf %d on two digits followed by a non-digit. -/
theorem scanInt_digits2 (a b x : Char) (rest : List Char)
    (ha : a.isDigit = true) (hb : b.isDigit = true) (hx : x.isDigit = false) :
    scanInt (a :: b :: x :: rest)
      = some (Int.ofNat (digitsToNat [a, b]), x :: rest) := by
  simp [scanInt, scanIntDigits, List.dropWhile_cons, List.takeWhile_cons,
    digit_not_space a ha, digit_ne_of a '-' (by decide) ha,
    digit_ne_of a '+' (by decide) ha, ha, hb, hx]

/-- Scanf %d on four digits followed by a non-digit. -/
theorem scanInt_digits4 (a b c d x : Char) (rest : List Char)
    (ha : a.isDigit = true) (hb : b.isDigit = true) (hc : c.isDigit = true)
    (hd : d.isDigit = true) (hx : x.isDigit = false) :
    scanInt (a :: b :: c :: d :: x :: rest)
      = some (Int.ofNat (digitsToNat [a, b, c, d]), x :: rest) := by
  simp [scanInt, scanIntDigits, List.dropWhile_cons, List.takeWhile_cons,
    digit_not_space a ha, digit_ne_of a '-' (by decide) ha,
    digit_ne_of a '+' (by decide) ha, ha, hb, hc, hd, hx]

/-- The six-integer scan succeeds on every string of the simplified
RFC3339 shape. -/
theorem sscanf6_simple_form (y1 y2 y3 y4 mo1 mo2 d1 d2 h1 h2 mi1 mi2 s1 s2 : Char)
    (hy1 : y1.isDigit = true) (hy2 : y2.isDigit = true)
    (hy3 : y3.isDigit = true) (hy4 : y4.isDigit = true)
    (hmo1 : mo1.isDigit = true) (hmo2 : mo2.isDigit = true)
    (hd1 : d1.isDigit = true) (hd2 : d2.isDigit = true)
    (hh1 : h1.isDigit = true) (hh2 : h2.isDigit = true)
    (hmi1 : mi1.isDigit = true) (hmi2 : mi2.isDigit = true)
    (hs1 : s1.isDigit = true) (hs2 : s2.isDigit = true) :
    sscanf6 [y1, y2, y3, y4, '-', mo1, mo2, '-', d1, d2, 'T',
             h1, h2, ':', mi1, mi2, ':', s1, s2, 'Z']
      = some (Int.ofNat (digitsToNat [y1, y2, y3, y4]),
              Int.ofNat (digitsToNat [mo1, mo2]),
              Int.ofNat (digitsToNat [d1, d2]),
              Int.ofNat (digitsToNat [h1, h2]),
              Int.ofNat (digitsToNat [mi1, mi2]),
              Int.ofNat (digitsToNat [s1, s2])) := by
  have e1 := scanInt_digits4 y1 y2 y3 y4 '-'
    [mo1, mo2, '-', d1, d2, 'T', h1, h2, ':', mi1, mi2, ':', s1, s2, 'Z']
    hy1 hy2 hy3 hy4 (by decide)
  have e2 := scanInt_digits2 mo1 mo2 '-'
    [d1, d2, 'T', h1, h2, ':', mi1, mi2, ':', s1, s2, 'Z']
    hmo1 hmo2 (by decide)
  have e3 := scanInt_digits2 d1 d2 'T'
    [h1, h2, ':', mi1, mi2, ':', s1, s2, 'Z'] hd1 hd2 (by decide)
  have e4 := scanInt_digits2 h1 h2 ':'
    [mi1, mi2, ':', s1, s2, 'Z'] hh1 hh2 (by decide)
  have e5 := scanInt_digits2 mi1 mi2 ':' [s1, s2, 'Z'] hmi1 hmi2 (by decide)
  have e6 := scanInt_digits2 s1 s2 'Z' [] hs1 hs2 (by decide)
  simp [sscanf6, e1, e2, e3, e4, e5, e6, scanLit_cons_self]

set_option maxRecDepth 8000 in
/-- Claim C7 (amended): the parser accepts every string of the simplified
RFC3339 UTC shape; as_of_time("2024-01-15T10:30:00Z") stores the
timestamp 1705314600 s / 0 ns, and as_of_time("not-a-timestamp") raises
InvalidTimestamp. -/
theorem as_of_time_parse_behavior :
    (∀ y1 y2 y3 y4 mo1 mo2 d1 d2 h1 h2 mi1 mi2 s1 s2 : Char,
       y1.isDigit = true → y2.isDigit = true → y3.isDigit = true →
       y4.isDigit = true → mo1.isDigit = true → mo2.isDigit = true →
       d1.isDigit = true → d2.isDigit = true → h1.isDigit = true →
       h2.isDigit = true → mi1.isDigit = true → mi2.isDigit = true →
       s1.isDigit = true → s2.isDigit = true →
       (parse_rfc3339 (simpleFormStr y1 y2 y3 y4 mo1 mo2 d1 d2 h1 h2 mi1 mi2 s1 s2)).isOk
         = true)
    ∧ exampleQB.as_of_time "2024-01-15T10:30:00Z" = .ok exampleQBAfter
    ∧ exampleQB.as_of_time "not-a-timestamp"
        = .error (.invalidTimestamp "Invalid RFC3339 timestamp: not-a-timestamp") := by
  refine ⟨?_, rfl, rfl⟩
  intro y1 y2 y3 y4 mo1 mo2 d1 d2 h1 h2 mi1 mi2 s1 s2
    hy1 hy2 hy3 hy4 hmo1 hmo2 hd1 hd2 hh1 hh2 hmi1 hmi2 hs1 hs2
  have hd : (simpleFormStr y1 y2 y3 y4 mo1 mo2 d1 d2 h1 h2 mi1 mi2 s1 s2).data
      = [y1, y2, y3, y4, '-', mo1, mo2, '-', d1, d2, 'T',
         h1, h2, ':', mi1, mi2, ':', s1, s2, 'Z'] := rfl
  have hscan := sscanf6_simple_form y1 y2 y3 y4 mo1 mo2 d1 d2 h1 h2 mi1 mi2 s1 s2
    hy1 hy2 hy3 hy4 hmo1 hmo2 hd1 hd2 hh1 hh2 hmi1 hmi2 hs1 hs2
  unfold parse_rfc3339
  rw [hd, hscan]
  rw [if_neg (not_or.mpr ⟨by simp, by simp⟩)]
  rfl

/-- Witness for the universal part of as_of_time_parse_behavior at the
concrete date 2024-01-15. -/
theorem as_of_time_parse_behavior_witness :
    ('2' : Char).isDigit = true
    ∧ (parse_rfc3339 (simpleFormStr '2' '0' '2' '4' '0' '1' '1' '5'
        '1' '0' '3' '0' '0' '0')).isOk = true :=
  ⟨rfl, as_of_time_parse_behavior.1 '2' '0' '2' '4' '0' '1' '1' '5'
    '1' '0' '3' '0' '0' '0' rfl rfl rfl rfl rfl rfl rfl rfl rfl rfl
    rfl rfl rfl rfl⟩

set_option maxRecDepth 8000 in
/-- Counterexample to claim C7 as stated: as_of_time succeeds on
"2024-01-15T10:30:00W", which is not of the YYYY-MM-DDTHH:MM:SSZ form —
the trailing 'Z' is never checked. -/
theorem as_of_time_accepts_non_simple_form :
    exampleQB.as_of_time "2024-01-15T10:30:00W" = .ok exampleQBAfter
    ∧ specSimpleRfc3339Form "2024-01-15T10:30:00W" = false
    ∧ specSimpleRfc3339Form "2024-01-15T10:30:00Z" = true :=
  ⟨rfl, rfl, rfl⟩

/-- Witness for type_url_round_trip at a concrete type name. -/
theorem type_url_round_trip_witness :
    ('/' ∉ "examples.ReserveStock".data)
    ∧ type_url_matches ("type.googleapis.com/" ++ "examples.ReserveStock")
        "examples.ReserveStock" = true
    ∧ type_name_from_url ("type.googleapis.com/" ++ "examples.ReserveStock")
        = "examples.ReserveStock"
    ∧ type_name_from_url "nodash" = "nodash" := by
  have h : ('/' : Char) ∉ "examples.ReserveStock".data := by decide
  have t := type_url_round_trip "examples.ReserveStock" h
  exact ⟨h, t.1, t.2.1, t.2.2 "nodash" (by decide)⟩

end Angzarr
